import Mathlib

/-!
A shallow embedding of `zerver/lib/queue.py` (Zulip's RabbitMQ queue client
library): the blocking `SimpleQueueClient`, the event-driven
`TornadoQueueClient`, and the module-level helpers `queue_json_publish` and
`retry_event`.  Pure data is translated directly; interactions with the pika
broker library (declare, publish, consume, ack, nack, logging, scheduling)
are recorded as an explicit list of effects emitted by each operation, and
the asynchronous confirmation callbacks of the Tornado client are
sequentialised (a declare request and its confirmation callback run as one
step while the channel is open).  Randomness in consumer-tag generation
(`random.getrandbits(16)`) is idealised as a fresh nonce drawn from a
monotonic counter, and the tag string `f"{queue_name}_{bits}"` is kept as
the pair of its two components.
-/

/-- Severity of a log call (`self.log.info` / `warning` / `critical`). -/
inductive LogLevel where
  | info
  | warning
  | critical
  deriving DecidableEq, Repr

/-- A consumer tag, src line 78-79: `f"{queue_name}_{str(random.getrandbits(16))}"`.
Modelled as the pair of its components, the random 16-bit suffix idealised
as a fresh nonce from a per-client counter. -/
structure CTag where
  queue : String
  nonce : Nat
  deriving DecidableEq, Repr

/-- Observable interactions of the client with the pika broker library,
the logger, and the event loop. -/
inductive Effect where
  | connect
  | openChannel
  | scheduleReconnect (secs : Nat)
  | log (lvl : LogLevel)
  | queueDeclare (queue : String)
  | basicPublish (queue : String) (body : String)
  | basicConsume (queue : String) (tag : CTag)
  | basicAck (deliveryTag : Nat)
  | basicNack (deliveryTag : Nat)
  deriving DecidableEq, Repr

def isDeclare : Effect → Bool
  | .queueDeclare _ => true
  | _ => false

def isPublish : Effect → Bool
  | .basicPublish _ _ => true
  | _ => false

def isConnect : Effect → Bool
  | .connect => true
  | _ => false

def isConsume : Effect → Bool
  | .basicConsume _ _ => true
  | _ => false

def isAck : Effect → Bool
  | .basicAck _ => true
  | _ => false

def isNack : Effect → Bool
  | .basicNack _ => true
  | _ => false

/-- The consumer tag of a consume effect, if any. -/
def consumeTag : Effect → Option CTag
  | .basicConsume _ t => some t
  | _ => none

/-- src line 18: `MAX_REQUEST_RETRIES = 3`. -/
def MAX_REQUEST_RETRIES : Int := 3

/-- src line 228: `CONNECTION_RETRY_SECS = 2`. -/
def CONNECTION_RETRY_SECS : Nat := 2

/-- src line 240: `CONNECTION_FAILURES_BEFORE_NOTIFY = 10`. -/
def CONNECTION_FAILURES_BEFORE_NOTIFY : Nat := 10

/-- A `wrapped_consumer` closure created by one call to `register_consumer`
(src 133-148 and 295-310).  Python compares function objects by identity, so
each closure is distinct; `id` models that identity (drawn from a fresh
counter), `callbackId` identifies the application callback it wraps. -/
structure Wrapper where
  id : Nat
  queue : String
  callbackId : Nat
  deriving DecidableEq, Repr

/-- Embeds `set.add` on the per-queue consumer sets (`self.consumers[queue_name].add(...)`,
src 145 / 304 / 307): inserts unless an equal element is already present. -/
def insertWrapper (w : Wrapper) (l : List Wrapper) : List Wrapper :=
  if w ∈ l then l else l ++ [w]

/-- Errors raised by the pika layer that `json_publish` distinguishes
(`pika.exceptions.AMQPConnectionError`, src 127). -/
inductive PikaErr where
  | amqpConnectionError
  deriving DecidableEq, Repr

/-- Outcome of one `channel.basic_publish` call: either it returns, or it
raises a connection-level `AMQPConnectionError`. -/
inductive PubResult where
  | success
  | connError
  deriving DecidableEq, Repr

/-- State of a `SimpleQueueClient` (src 25-186).  `connected` models
`self.connection is not None and self.connection.is_open` (and with it a
usable `self.channel`); `queues` is the declared-queue cache `self.queues`;
`consumers` flattens the `Dict[str, Set[Consumer]]` of wrapped consumers,
each entry keeping its queue name; `nextWrapper` and `nextCtag` are the
freshness counters for closure identities and consumer-tag nonces. -/
structure SimpleQueueClient where
  connected : Bool
  queues : List String
  consumers : List Wrapper
  nextWrapper : Nat
  nextCtag : Nat
  deriving DecidableEq, Repr

namespace SimpleQueueClient

/-- Embeds `SimpleQueueClient._connect` (src 37-41): opens a `BlockingConnection`
and a channel, then logs at info level.  Connection establishment itself is
modelled as succeeding; the failures relevant to the claims are raised by
`basic_publish` (see `publishOnce`). -/
def connect (st : SimpleQueueClient) : SimpleQueueClient × List Effect :=
  ({ st with connected := true }, [Effect.connect, Effect.log .info])

/-- Embeds `SimpleQueueClient._reconnect` (src 43-47): drops the connection and
channel, empties the declared-queue cache, and connects again.  Note that it
does not touch `self.consumers` and does not resubmit any consume request. -/
def reconnect (st : SimpleQueueClient) : SimpleQueueClient × List Effect :=
  let st1 := { st with connected := false, queues := [] }
  st1.connect

/-- Embeds `SimpleQueueClient.ensure_queue` (src 99-108): reconnect if the
connection is closed, declare the queue (durable) unless it is cached, mark
it cached, then run the callback.  The callback may itself touch client
state, emit effects, and raise (needed by `publishOnce`). -/
def ensure_queue (st : SimpleQueueClient) (queue_name : String)
    (callback : SimpleQueueClient → SimpleQueueClient × List Effect × Option PikaErr) :
    SimpleQueueClient × List Effect × Option PikaErr :=
  let (st1, e1) := if !st.connected then st.connect else (st, [])
  let (st2, e2) :=
    if queue_name ∈ st1.queues then (st1, [])
    else ({ st1 with queues := queue_name :: st1.queues }, [Effect.queueDeclare queue_name])
  let (st3, e3, err) := callback st2
  (st3, e1 ++ e2 ++ e3, err)

/-- One call to `SimpleQueueClient.publish` (src 110-120), parameterised by
the outcome of the underlying `channel.basic_publish` call: the publish
attempt is recorded as an effect, and on `connError` the
`AMQPConnectionError` propagates out of `ensure_queue`. -/
def publishOnce (st : SimpleQueueClient) (queue_name body : String) (outcome : PubResult) :
    SimpleQueueClient × List Effect × Option PikaErr :=
  st.ensure_queue queue_name (fun s =>
    match outcome with
    | .success => (s, [Effect.basicPublish queue_name body], none)
    | .connError => (s, [Effect.basicPublish queue_name body], some .amqpConnectionError))

/-- Embeds `SimpleQueueClient.json_publish` (src 122-131): serialise the body, try
`publish` once; on `AMQPConnectionError` log a warning, `_reconnect`, and
retry `publish` exactly once more — the retry is outside the `try`, so a
second error propagates to the caller.  `o1`/`o2` are the outcomes of the
first and (if reached) second `basic_publish`. -/
def json_publish (st : SimpleQueueClient) (queue_name body : String) (o1 o2 : PubResult) :
    SimpleQueueClient × List Effect × Option PikaErr :=
  let (st1, e1, r1) := st.publishOnce queue_name body o1
  match r1 with
  | none => (st1, e1, none)
  | some _ =>
    let (st2, e2) := st1.reconnect
    let (st3, e3, r3) := st2.publishOnce queue_name body o2
    (st3, e1 ++ [Effect.log .warning] ++ e2 ++ e3, r3)

/-- Embeds `SimpleQueueClient.register_consumer` (src 133-148): create a fresh
`wrapped_consumer` closure, add it to the per-queue consumer set, then
`ensure_queue` with a callback that issues `basic_consume` with a freshly
generated consumer tag. -/
def register_consumer (st : SimpleQueueClient) (queue_name : String) (callbackId : Nat) :
    SimpleQueueClient × List Effect :=
  let w : Wrapper := ⟨st.nextWrapper, queue_name, callbackId⟩
  let st1 := { st with
    nextWrapper := st.nextWrapper + 1,
    consumers := insertWrapper w st.consumers }
  let r := st1.ensure_queue queue_name (fun s =>
    ({ s with nextCtag := s.nextCtag + 1 },
     [Effect.basicConsume queue_name ⟨queue_name, s.nextCtag⟩], none))
  (r.1, r.2.1)

end SimpleQueueClient

/-- Outcome of invoking the raw application consumer callback on one
delivery: it either returns normally or raises. -/
inductive CbOutcome where
  | returns
  | raises
  deriving DecidableEq, Repr

/-- One delivery through the `wrapped_consumer` closure of
`SimpleQueueClient.register_consumer` (src 134-143): run the consumer
(whose own observable effects, produced before it returns or raises, are
`cbEffects`); on normal return `basic_ack` the delivery tag; on an
exception `basic_nack` the delivery tag and re-raise.  The boolean reports
whether an exception propagates to the caller. -/
def wrapped_consumer_blocking (cbEffects : List Effect) (outcome : CbOutcome)
    (deliveryTag : Nat) : List Effect × Bool :=
  match outcome with
  | .returns => (cbEffects ++ [Effect.basicAck deliveryTag], false)
  | .raises => (cbEffects ++ [Effect.basicNack deliveryTag], true)

/-- One delivery through the `wrapped_consumer` closure of
`TornadoQueueClient.register_consumer` (src 296-301): run the consumer then
`basic_ack`; there is no `try`/`except`, so an exception propagates before
the ack and no nack is issued. -/
def wrapped_consumer_tornado (cbEffects : List Effect) (outcome : CbOutcome)
    (deliveryTag : Nat) : List Effect × Bool :=
  match outcome with
  | .returns => (cbEffects ++ [Effect.basicAck deliveryTag], false)
  | .raises => (cbEffects, true)

/-- The `basic_get` loop inside `SimpleQueueClient.drain_queue` (src
163-171), run against the broker's list of pending `(delivery_tag, body)`
messages: while `basic_get` yields a message, ack its tag and collect the
body.  Returns the collected bodies, the messages left pending on the
broker, and the emitted effects. -/
def drainLoop : List (Nat × String) → List String × List (Nat × String) × List Effect
  | [] => ([], [], [])
  | (tag, body) :: rest =>
    let (ms, rem, es) := drainLoop rest
    (body :: ms, rem, Effect.basicAck tag :: es)

/-- Embeds `SimpleQueueClient.drain_queue` (src 159-174): `ensure_queue` with the
`opened` callback that pops every currently pending message, acking each. -/
def SimpleQueueClient.drain_queue (st : SimpleQueueClient) (queue_name : String)
    (pending : List (Nat × String)) :
    SimpleQueueClient × List Effect × List String × List (Nat × String) :=
  let (msgs, rem, loopEffects) := drainLoop pending
  let r := st.ensure_queue queue_name (fun s => (s, loopEffects, none))
  (r.1, r.2.1, msgs, rem)

/-- An application-level event: the optional `failed_tries` counter read and
written by `retry_event`, plus an opaque payload standing for the rest of
the dictionary. -/
structure Event where
  failed_tries : Option Int
  payload : Nat
  deriving DecidableEq, Repr

/-- The relevant process configuration (`django.conf.settings`). -/
structure Settings where
  using_rabbitmq : Bool
  deriving DecidableEq, Repr

/-- Observable dispatch of an event by `queue_json_publish` / `retry_event`. -/
inductive DispatchEffect where
  | publishedToQueue (queue : String) (ev : Event)
  | workerConsumed (queue : String) (ev : Event)
  | failureProcessorRun (ev : Event)
  deriving DecidableEq, Repr

/-- Embeds `queue_json_publish` (src 330-342): under `settings.USING_RABBITMQ`,
hand the event to `get_queue_client().json_publish` (abstracted as a
`publishedToQueue` effect); otherwise, if a processor was supplied (a
Python-truthy value, so `Option` here), call it on the event; otherwise
dispatch the event directly to the queue's worker. -/
def queue_json_publish (s : Settings) (queue_name : String) (event : Event)
    (processor : Option (Event → List DispatchEffect)) : List DispatchEffect :=
  if s.using_rabbitmq then [DispatchEffect.publishedToQueue queue_name event]
  else
    match processor with
    | some p => p event
    | none => [DispatchEffect.workerConsumed queue_name event]

/-- Embeds `retry_event` (src 344-353): if the event has no `failed_tries` key, set
it to 0; increment it; if it now exceeds `MAX_REQUEST_RETRIES`, call the
failure processor on the event; otherwise republish the event to the same
queue via `queue_json_publish` with the no-op processor `lambda x: None`.
Returns the emitted dispatch effects and the event as mutated. -/
def retry_event (s : Settings) (queue_name : String) (event : Event)
    (failure_processor : Event → List DispatchEffect) :
    List DispatchEffect × Event :=
  let ev1 := if event.failed_tries.isNone then { event with failed_tries := some 0 } else event
  let ev2 := { ev1 with failed_tries := some (ev1.failed_tries.getD 0 + 1) }
  if ev2.failed_tries.getD 0 > MAX_REQUEST_RETRIES then
    (failure_processor ev2, ev2)
  else
    (queue_json_publish s queue_name ev2 (some (fun _ => [])), ev2)

/-- A callback passed to `TornadoQueueClient.ensure_queue`.  `app` is an
application callback, abstracted by the effects it emits when invoked;
`consume` is the `lambda: self.channel.basic_consume(queue_name, wrapped,
consumer_tag=self._generate_ctag(queue_name))` closure used by
`register_consumer` and `_reconnect_consumer_callback`, which draws a fresh
tag nonce at call time. -/
inductive CbAction where
  | app (effects : List Effect)
  | consume (w : Wrapper)
  deriving DecidableEq, Repr

/-- State of a `TornadoQueueClient` (src 202-310).  `channelOpen` models
`self.ready()` (`self.channel is not None`); `onOpenCbs` is the ordered
buffer `self._on_open_cbs` of deferred `ensure_queue` retries, each stored
with its queue name; `failureCount` is `self._connection_failure_count`. -/
structure TornadoQueueClient where
  channelOpen : Bool
  queues : List String
  consumers : List Wrapper
  nextWrapper : Nat
  nextCtag : Nat
  onOpenCbs : List (String × CbAction)
  failureCount : Nat
  deriving DecidableEq, Repr

namespace TornadoQueueClient

/-- The state of a `TornadoQueueClient` as `__init__` (src 205-210) leaves
it: no channel yet (the connection attempt is in flight), empty caches and
registries, failure counter zero. -/
def initial : TornadoQueueClient :=
  { channelOpen := false, queues := [], consumers := [], nextWrapper := 0,
    nextCtag := 0, onOpenCbs := [], failureCount := 0 }

/-- Invoke a `CbAction`: an `app` callback emits its effects; a `consume`
closure issues `basic_consume` with a freshly generated consumer tag
(`_generate_ctag`, src 78-79, idealised as the next nonce). -/
def runCb (st : TornadoQueueClient) : CbAction → TornadoQueueClient × List Effect
  | .app es => (st, es)
  | .consume w =>
    ({ st with nextCtag := st.nextCtag + 1 },
     [Effect.basicConsume w.queue ⟨w.queue, st.nextCtag⟩])

/-- Embeds `TornadoQueueClient.ensure_queue` (src 279-293): if the queue is not
cached and the channel is not ready, buffer a retry of this very call on
`self._on_open_cbs` and return; if not cached and ready, issue the durable
declare whose `finish` confirmation marks the queue cached and runs the
callback (the request and its confirmation are sequentialised here); if
cached, run the callback immediately. -/
def ensure_queue (st : TornadoQueueClient) (queue_name : String) (callback : CbAction) :
    TornadoQueueClient × List Effect :=
  if queue_name ∉ st.queues then
    if !st.channelOpen then
      ({ st with onOpenCbs := st.onOpenCbs ++ [(queue_name, callback)] }, [])
    else
      let st1 := { st with queues := queue_name :: st.queues }
      let (st2, es) := st1.runCb callback
      (st2, Effect.queueDeclare queue_name :: es)
  else
    st.runCb callback

/-- The `for callback in self._on_open_cbs: callback()` loop of
`_on_channel_open` (src 274-275), applied to a snapshot of the buffer: each
buffered entry re-invokes `ensure_queue` with its original arguments.
(During the drain the channel is open, so no entry re-buffers itself, and
the loop itself never mutates `self._on_open_cbs`.) -/
def runPending : TornadoQueueClient → List (String × CbAction) → TornadoQueueClient × List Effect
  | st, [] => (st, [])
  | st, (q, cb) :: rest =>
    let (st1, e1) := st.ensure_queue q cb
    let (st2, e2) := runPending st1 rest
    (st2, e1 ++ e2)

/-- Embeds `_reconnect_consumer_callback` (src 81-85, inherited): log at info
level, then `ensure_queue` with a closure that consumes on the queue with a
freshly generated tag. -/
def reconnect_consumer_callback (st : TornadoQueueClient) (w : Wrapper) :
    TornadoQueueClient × List Effect :=
  let (st1, es) := st.ensure_queue w.queue (.consume w)
  (st1, Effect.log .info :: es)

/-- The nested iteration of `_reconnect_consumer_callbacks` (src 87-90)
over a list of saved wrapped consumers. -/
def replayList : TornadoQueueClient → List Wrapper → TornadoQueueClient × List Effect
  | st, [] => (st, [])
  | st, w :: ws =>
    let (st1, e1) := st.reconnect_consumer_callback w
    let (st2, e2) := replayList st1 ws
    (st2, e1 ++ e2)

/-- Embeds `_reconnect_consumer_callbacks` (src 87-90): resubmit every saved
wrapped consumer in the registry. -/
def reconnect_consumer_callbacks (st : TornadoQueueClient) :
    TornadoQueueClient × List Effect :=
  st.replayList st.consumers

/-- Embeds `TornadoQueueClient._connect` (src 212-219): log, then start an
asynchronous connection attempt whose outcome arrives later through
`_on_open` / `_on_connection_open_error`. -/
def connect (st : TornadoQueueClient) : TornadoQueueClient × List Effect :=
  (st, [Effect.log .info, Effect.connect])

/-- Embeds `TornadoQueueClient._reconnect` (src 221-226): drop the connection and
channel, empty the declared-queue cache, log a warning, and start a new
connection attempt.  `self._on_open_cbs` and `self.consumers` are not
touched. -/
def reconnect (st : TornadoQueueClient) : TornadoQueueClient × List Effect :=
  let st1 := { st with channelOpen := false, queues := [] }
  let (st2, es) := st1.connect
  (st2, Effect.log .warning :: es)

/-- Embeds `_on_connection_open_error` (src 242-252): increment the failure
counter, log the retry message — critical once the counter exceeds
`CONNECTION_FAILURES_BEFORE_NOTIFY`, warning otherwise — and schedule
`_reconnect` after `CONNECTION_RETRY_SECS`. -/
def on_connection_open_error (st : TornadoQueueClient) :
    TornadoQueueClient × List Effect :=
  let st1 := { st with failureCount := st.failureCount + 1 }
  let lvl := if st1.failureCount > CONNECTION_FAILURES_BEFORE_NOTIFY
             then LogLevel.critical else LogLevel.warning
  (st1, [Effect.log lvl, Effect.scheduleReconnect CONNECTION_RETRY_SECS])

/-- Embeds `_on_connection_closed` (src 254-260): a loss of an established
connection counts as the first failure of a new retry loop, so the counter
is set to 1; log a warning and schedule `_reconnect`. -/
def on_connection_closed (st : TornadoQueueClient) :
    TornadoQueueClient × List Effect :=
  ({ st with failureCount := 1 },
   [Effect.log .warning, Effect.scheduleReconnect CONNECTION_RETRY_SECS])

/-- Embeds `_on_open` (src 262-270): reset the failure counter to zero and request
a channel (whose confirmation arrives later via `_on_channel_open`). -/
def on_open (st : TornadoQueueClient) : TornadoQueueClient × List Effect :=
  ({ st with failureCount := 0 }, [Effect.openChannel])

/-- Embeds `_on_channel_open` (src 272-277): record the channel as usable, run
every buffered on-open callback in order (the buffer is not cleared), then
replay the consumer registry, then log at info level. -/
def on_channel_open (st : TornadoQueueClient) : TornadoQueueClient × List Effect :=
  let st0 := { st with channelOpen := true }
  let (st1, e1) := runPending st0 st0.onOpenCbs
  let (st2, e2) := st1.reconnect_consumer_callbacks
  (st2, e1 ++ e2 ++ [Effect.log .info])

/-- Embeds `TornadoQueueClient.register_consumer` (src 295-310): create a fresh
`wrapped_consumer` closure; if the channel is not ready, just save it in
the registry (replay will submit it); otherwise save it and submit a
consume request through `ensure_queue` with a fresh tag. -/
def register_consumer (st : TornadoQueueClient) (queue_name : String) (callbackId : Nat) :
    TornadoQueueClient × List Effect :=
  let w : Wrapper := ⟨st.nextWrapper, queue_name, callbackId⟩
  let st1 := { st with nextWrapper := st.nextWrapper + 1 }
  if !st1.channelOpen then
    ({ st1 with consumers := insertWrapper w st1.consumers }, [])
  else
    let st2 := { st1 with consumers := insertWrapper w st1.consumers }
    st2.ensure_queue queue_name (.consume w)

end TornadoQueueClient

/-- Connection-lifecycle events delivered by pika to the Tornado client's
registered callbacks: a failed connection attempt, the loss of an
established connection, a successful open. -/
inductive ConnEvent where
  | openError
  | closed
  | opened
  deriving DecidableEq, Repr

/-- Dispatch one connection-lifecycle event to the corresponding
`TornadoQueueClient` handler. -/
def TornadoQueueClient.connStep (st : TornadoQueueClient) (e : ConnEvent) :
    TornadoQueueClient × List Effect :=
  match e with
  | .openError => st.on_connection_open_error
  | .closed => st.on_connection_closed
  | .opened => st.on_open

/-- Run a sequence of connection-lifecycle events through the handlers. -/
def TornadoQueueClient.runConnTrace (st : TornadoQueueClient) :
    List ConnEvent → TornadoQueueClient
  | [] => st
  | e :: tr => ((st.connStep e).1).runConnTrace tr

/-- Well-formedness of a lifecycle trace, tracking whether a connection is
currently established: an open-error can only hit a pending connection
attempt, a close can only hit an established connection, and an open can
only conclude a pending attempt.  These are the sequences pika can deliver
to the three registered callbacks. -/
def wfConnTrace : Bool → List ConnEvent → Bool
  | _, [] => true
  | estab, .openError :: tr => !estab && wfConnTrace false tr
  | estab, .closed :: tr => estab && wfConnTrace false tr
  | estab, .opened :: tr => !estab && wfConnTrace true tr

/-- Modelled from the spec (§4.1): the failure counter "increments on every
failed attempt and every loss of an established connection; it resets to
zero on successful open". -/
def specFailureCount (c : Nat) : List ConnEvent → Nat
  | [] => c
  | .openError :: tr => specFailureCount (c + 1) tr
  | .closed :: tr => specFailureCount (c + 1) tr
  | .opened :: tr => specFailureCount 0 tr

/-- A sequence of application calls to `TornadoQueueClient.ensure_queue`,
each given as a queue name and the effects of its callback, issued one
after the other. -/
def issueAll : TornadoQueueClient → List (String × List Effect) →
    TornadoQueueClient × List Effect
  | st, [] => (st, [])
  | st, (q, es) :: rest =>
    let (st1, e1) := st.ensure_queue q (.app es)
    let (st2, e2) := issueAll st1 rest
    (st2, e1 ++ e2)

/-- Modelled from the spec (§4.4): the effects of executing a list of
buffered `ensureQueue` operations in FIFO issue order against an open
channel — each operation declares its queue unless an earlier one already
did, then runs its callback. -/
def fifoSpec (declared : List String) : List (String × List Effect) → List Effect
  | [] => []
  | (q, es) :: rest =>
    if q ∈ declared then es ++ fifoSpec declared rest
    else (Effect.queueDeclare q :: es) ++ fifoSpec (q :: declared) rest

/-- Modelled from the spec (§4.3): consumer replay "resubmits each as a
fresh consume request with a new tag" — one consume request per registry
entry, on that entry's queue, with successively drawn fresh tag nonces. -/
def replayConsumeSpec (c : Nat) : List Wrapper → List Effect
  | [] => []
  | w :: ws => Effect.basicConsume w.queue ⟨w.queue, c⟩ :: replayConsumeSpec (c + 1) ws

/-- A failure processor whose invocations are visible as effects, used to
observe how often `retry_event` calls its failure handler. -/
def countingFailureProcessor : Event → List DispatchEffect :=
  fun e => [DispatchEffect.failureProcessorRun e]

lemma filter_eq_nil_of_all_not (p : Effect → Bool) (l : List Effect)
    (h : l.all (fun e => !p e) = true) : l.filter p = [] := by
  induction l with
  | nil => rfl
  | cons a t ih =>
    simp only [List.all_cons, Bool.and_eq_true, Bool.not_eq_true'] at h
    simp [List.filter_cons, h.1, ih (by simpa using h.2)]

lemma count_ack_eq_zero (l : List Effect) (tag : Nat)
    (h : l.all (fun e => !isAck e && !isNack e) = true) :
    l.count (Effect.basicAck tag) = 0 := by
  rw [List.count_eq_zero]
  intro mem
  have := List.all_eq_true.mp h _ mem
  simp [isAck] at this

lemma count_nack_eq_zero (l : List Effect) (tag : Nat)
    (h : l.all (fun e => !isAck e && !isNack e) = true) :
    l.count (Effect.basicNack tag) = 0 := by
  rw [List.count_eq_zero]
  intro mem
  have := List.all_eq_true.mp h _ mem
  simp [isNack] at this

/-- Claim C3: `retry_event` increments the event's `failed_tries` counter,
initialising it to zero first when the key is absent (so an event with no
counter ends with counter 1 and is republished); whenever the incremented
counter exceeds the fixed ceiling `MAX_REQUEST_RETRIES = 3` it invokes the
failure handler exactly once instead of republishing and performs no
further retry or mutation; otherwise it republishes the event to the same
queue and does not call the failure handler. -/
theorem retry_event_ceiling_policy (q : String) (ev : Event) :
    (retry_event ⟨true⟩ q ev countingFailureProcessor).2
      = { ev with failed_tries := some (ev.failed_tries.getD 0 + 1) } ∧
    (ev.failed_tries = none →
      (retry_event ⟨true⟩ q ev countingFailureProcessor).2.failed_tries = some 1 ∧
      (retry_event ⟨true⟩ q ev countingFailureProcessor).1
        = [DispatchEffect.publishedToQueue q
            { ev with failed_tries := some 1 }]) ∧
    (ev.failed_tries.getD 0 + 1 > MAX_REQUEST_RETRIES →
      (retry_event ⟨true⟩ q ev countingFailureProcessor).1
        = [DispatchEffect.failureProcessorRun
            { ev with failed_tries := some (ev.failed_tries.getD 0 + 1) }]) ∧
    (ev.failed_tries.getD 0 + 1 ≤ MAX_REQUEST_RETRIES →
      (retry_event ⟨true⟩ q ev countingFailureProcessor).1
        = [DispatchEffect.publishedToQueue q
            { ev with failed_tries := some (ev.failed_tries.getD 0 + 1) }]) := by
  obtain ⟨ft, pl⟩ := ev
  cases ft with
  | none =>
    refine ⟨?_, ?_, ?_, ?_⟩ <;>
      simp [retry_event, queue_json_publish, countingFailureProcessor, MAX_REQUEST_RETRIES]
  | some n =>
    simp only [retry_event, queue_json_publish, countingFailureProcessor,
      MAX_REQUEST_RETRIES, Option.isNone_some, Bool.false_eq_true, if_false,
      Option.getD_some]
    split_ifs with h
    · exact ⟨rfl, by simp, fun _ => rfl, fun h2 => absurd h (by omega)⟩
    · exact ⟨rfl, by simp, fun h2 => absurd h2 h, fun _ => rfl⟩

theorem retry_event_ceiling_policy_witness :
    (({ failed_tries := some 3, payload := 7 } : Event).failed_tries.getD 0 + 1
        > MAX_REQUEST_RETRIES) ∧
    (retry_event ⟨true⟩ "missed_message_emails" { failed_tries := some 3, payload := 7 }
        countingFailureProcessor).1
      = [DispatchEffect.failureProcessorRun { failed_tries := some 4, payload := 7 }] :=
  ⟨by decide,
   ((retry_event_ceiling_policy "missed_message_emails"
      { failed_tries := some 3, payload := 7 }).2.2.1 (by decide))⟩

/-- Claim C10: with `settings.USING_RABBITMQ` false, the below-ceiling
branch of `retry_event` dispatches through `queue_json_publish` with the
no-op processor `lambda x: None`, so an event whose incremented counter is
at most the ceiling is silently discarded: no dispatch effect is produced —
the event is neither published, nor handed to a worker, nor passed to the
failure handler. -/
theorem retry_event_discards_without_rabbitmq (q : String) (ev : Event) :
    ev.failed_tries.getD 0 + 1 ≤ MAX_REQUEST_RETRIES →
    (retry_event ⟨false⟩ q ev countingFailureProcessor).1 = [] := by
  intro h
  obtain ⟨ft, pl⟩ := ev
  cases ft with
  | none =>
    simp only [Option.getD_none] at h
    simp [retry_event, queue_json_publish, MAX_REQUEST_RETRIES]
  | some n =>
    simp only [Option.getD_some, MAX_REQUEST_RETRIES] at h
    simp only [retry_event, queue_json_publish, MAX_REQUEST_RETRIES,
      Option.isNone_some, Bool.false_eq_true, if_false, Option.getD_some]
    rw [if_neg (by omega)]

theorem retry_event_discards_without_rabbitmq_witness :
    (({ failed_tries := none, payload := 5 } : Event).failed_tries.getD 0 + 1
        ≤ MAX_REQUEST_RETRIES) ∧
    (retry_event ⟨false⟩ "email_mirror" { failed_tries := none, payload := 5 }
        countingFailureProcessor).1 = [] :=
  ⟨by decide,
   retry_event_discards_without_rabbitmq "email_mirror"
     { failed_tries := none, payload := 5 } (by decide)⟩

lemma all_not_ack_of {l : List Effect}
    (h : l.all (fun e => !isAck e && !isNack e) = true) :
    l.all (fun e => !isAck e) = true := by
  rw [List.all_eq_true] at h ⊢
  intro e he
  have hh := h e he
  simp only [Bool.and_eq_true] at hh
  exact hh.1

lemma all_not_nack_of {l : List Effect}
    (h : l.all (fun e => !isAck e && !isNack e) = true) :
    l.all (fun e => !isNack e) = true := by
  rw [List.all_eq_true] at h ⊢
  intro e he
  have hh := h e he
  simp only [Bool.and_eq_true] at hh
  exact hh.2

/-- Claim C4: for a consumer callback that itself issues no ack or nack, on
one delivered message the blocking wrapper acks the delivery tag after a
normal return (exactly one ack, last, no nack, no exception escapes) and
nacks that tag before re-raising when the callback raises (exactly one
nack, last — so it is issued before the exception reaches the caller — and
no ack); the event-driven wrapper acks only after a normal return, and on
an exception issues neither ack nor nack and lets the exception escape. -/
theorem consumer_wrapper_ack_nack (es : List Effect) (tag : Nat)
    (h : es.all (fun e => !isAck e && !isNack e) = true) :
    ((wrapped_consumer_blocking es .returns tag).1.count (Effect.basicAck tag) = 1
     ∧ (wrapped_consumer_blocking es .returns tag).1.filter isNack = []
     ∧ (wrapped_consumer_blocking es .returns tag).1.getLast? = some (Effect.basicAck tag)
     ∧ (wrapped_consumer_blocking es .returns tag).2 = false)
    ∧ ((wrapped_consumer_blocking es .raises tag).1.count (Effect.basicNack tag) = 1
     ∧ (wrapped_consumer_blocking es .raises tag).1.filter isAck = []
     ∧ (wrapped_consumer_blocking es .raises tag).1.getLast? = some (Effect.basicNack tag)
     ∧ (wrapped_consumer_blocking es .raises tag).2 = true)
    ∧ ((wrapped_consumer_tornado es .returns tag).1.count (Effect.basicAck tag) = 1
     ∧ (wrapped_consumer_tornado es .returns tag).1.filter isNack = []
     ∧ (wrapped_consumer_tornado es .returns tag).1.getLast? = some (Effect.basicAck tag)
     ∧ (wrapped_consumer_tornado es .returns tag).2 = false)
    ∧ ((wrapped_consumer_tornado es .raises tag).1.filter isAck = []
     ∧ (wrapped_consumer_tornado es .raises tag).1.filter isNack = []
     ∧ (wrapped_consumer_tornado es .raises tag).2 = true) := by
  have hackz := count_ack_eq_zero es tag h
  have hnackz := count_nack_eq_zero es tag h
  have hfa := filter_eq_nil_of_all_not isAck es (all_not_ack_of h)
  have hfn := filter_eq_nil_of_all_not isNack es (all_not_nack_of h)
  refine ⟨⟨?_, ?_, ?_, rfl⟩, ⟨?_, ?_, ?_, rfl⟩, ⟨?_, ?_, ?_, rfl⟩, ⟨hfa, hfn, rfl⟩⟩ <;>
    simp [wrapped_consumer_blocking, wrapped_consumer_tornado,
      List.count_append, List.filter_append, List.getLast?_concat,
      hackz, hnackz, hfa, hfn, isAck, isNack]

theorem consumer_wrapper_ack_nack_witness :
    ([Effect.basicPublish "events" "x"].all (fun e => !isAck e && !isNack e) = true) ∧
    (wrapped_consumer_blocking [Effect.basicPublish "events" "x"] .raises 42).1.count
      (Effect.basicNack 42) = 1 :=
  ⟨by decide,
   (consumer_wrapper_ack_nack [Effect.basicPublish "events" "x"] 42 (by decide)).2.1.1⟩

lemma drainLoop_eq (pending : List (Nat × String)) :
    drainLoop pending
      = (pending.map Prod.snd, [], pending.map (fun p => Effect.basicAck p.1)) := by
  induction pending with
  | nil => rfl
  | cons p rest ih =>
    obtain ⟨tag, body⟩ := p
    simp [drainLoop, ih]

/-- Claim C9: `drain_queue` on an empty queue returns the empty sequence;
on a queue holding `n` pending messages it returns exactly those `n`
message bodies in delivery order, acknowledges each one's delivery tag
exactly once, and leaves the broker queue empty. -/
theorem drain_queue_drains_all (st : SimpleQueueClient) (q : String)
    (pending : List (Nat × String)) :
    (st.drain_queue q pending).2.2.1 = pending.map Prod.snd
    ∧ (st.drain_queue q pending).2.2.2 = []
    ∧ (st.drain_queue q pending).2.1.filter isAck
        = pending.map (fun p => Effect.basicAck p.1) := by
  have hall : (pending.map (fun p => Effect.basicAck p.1)).filter isAck
      = pending.map (fun p => Effect.basicAck p.1) := by
    rw [List.filter_eq_self]
    intro e he
    obtain ⟨p, _, rfl⟩ := List.mem_map.mp he
    rfl
  simp only [SimpleQueueClient.drain_queue, drainLoop_eq]
  refine ⟨trivial, trivial, ?_⟩
  simp only [SimpleQueueClient.ensure_queue, SimpleQueueClient.connect]
  split_ifs <;> simp [List.filter_append, hall, isAck]

/-- Claim C1: for every queue name and body, a blocking-model publish —
`json_publish`, the publish entry point that owns the retry (src 122-131)
— whose first `basic_publish` fails with a connection-level
`AMQPConnectionError` performs exactly one reconnect followed by exactly
one retried publish (two publish attempts in total, never a third); if the
retried publish also fails, that second error propagates to the caller;
and a first attempt that succeeds entails no reconnect and no retry. -/
theorem json_publish_single_retry (st : SimpleQueueClient) (q body : String)
    (o1 o2 : PubResult) (h : st.connected = true) :
    (((st.json_publish q body o1 o2).2.1.filter isPublish).length
        = if o1 = .connError then 2 else 1)
    ∧ (((st.json_publish q body o1 o2).2.1.filter isConnect).length
        = if o1 = .connError then 1 else 0)
    ∧ ((st.json_publish q body o1 o2).2.2 = some .amqpConnectionError
        ↔ (o1 = .connError ∧ o2 = .connError)) := by
  cases o1 <;> cases o2 <;>
    simp only [SimpleQueueClient.json_publish, SimpleQueueClient.publishOnce,
      SimpleQueueClient.ensure_queue, SimpleQueueClient.reconnect,
      SimpleQueueClient.connect, h, Bool.not_true, Bool.false_eq_true, if_false] <;>
    split_ifs <;>
    first
      | contradiction
      | simp [List.filter_append, isPublish, isConnect]

theorem json_publish_single_retry_witness :
    (({ connected := true, queues := [], consumers := [], nextWrapper := 0,
        nextCtag := 0 } : SimpleQueueClient).connected = true)
    ∧ (((({ connected := true, queues := [], consumers := [], nextWrapper := 0,
            nextCtag := 0 } : SimpleQueueClient).json_publish
           "notify_tornado" "body" .connError .connError).2.1.filter isPublish).length = 2)
    ∧ ((({ connected := true, queues := [], consumers := [], nextWrapper := 0,
           nextCtag := 0 } : SimpleQueueClient).json_publish
          "notify_tornado" "body" .connError .connError).2.2
        = some .amqpConnectionError) :=
  ⟨rfl,
   by simpa using (json_publish_single_retry
      { connected := true, queues := [], consumers := [], nextWrapper := 0, nextCtag := 0 }
      "notify_tornado" "body" .connError .connError rfl).1,
   (json_publish_single_retry
      { connected := true, queues := [], consumers := [], nextWrapper := 0, nextCtag := 0 }
      "notify_tornado" "body" .connError .connError rfl).2.2.mpr ⟨rfl, rfl⟩⟩

/-- Claim C5: in both execution models, for a live channel and a callback
that itself declares nothing, calling `ensure_queue q cb` twice in a row
issues at most one queue-declare request: the first call, when `q` is not
yet cached, declares exactly once, marks `q` declared, and runs the
callback; the second call runs the callback without declaring again. -/
theorem ensure_queue_declares_once
    (st : SimpleQueueClient) (t : TornadoQueueClient) (q : String)
    (es es' : List Effect)
    (hb : st.connected = true)
    (hbe : es.all (fun e => !isDeclare e) = true)
    (ht : t.channelOpen = true)
    (hte : es'.all (fun e => !isDeclare e) = true) :
    ((((st.ensure_queue q (fun s => (s, es, none))).2.1
        ++ ((st.ensure_queue q (fun s => (s, es, none))).1.ensure_queue q
              (fun s => (s, es, none))).2.1).filter isDeclare).length ≤ 1
     ∧ (q ∉ st.queues →
          (st.ensure_queue q (fun s => (s, es, none))).2.1 = Effect.queueDeclare q :: es
          ∧ q ∈ (st.ensure_queue q (fun s => (s, es, none))).1.queues)
     ∧ ((st.ensure_queue q (fun s => (s, es, none))).1.ensure_queue q
          (fun s => (s, es, none))).2.1 = es)
    ∧ ((((t.ensure_queue q (.app es')).2
          ++ ((t.ensure_queue q (.app es')).1.ensure_queue q (.app es')).2).filter
            isDeclare).length ≤ 1
     ∧ (q ∉ t.queues →
          (t.ensure_queue q (.app es')).2 = Effect.queueDeclare q :: es'
          ∧ q ∈ (t.ensure_queue q (.app es')).1.queues)
     ∧ ((t.ensure_queue q (.app es')).1.ensure_queue q (.app es')).2 = es') := by
  have hfb := filter_eq_nil_of_all_not isDeclare es hbe
  have hft := filter_eq_nil_of_all_not isDeclare es' hte
  constructor
  · by_cases hq : q ∈ st.queues <;>
      simp [SimpleQueueClient.ensure_queue, hb, hq, List.filter_append, hfb, isDeclare]
  · by_cases hq : q ∈ t.queues <;>
      simp [TornadoQueueClient.ensure_queue, TornadoQueueClient.runCb, ht, hq,
        List.filter_append, hft, isDeclare]

theorem ensure_queue_declares_once_witness :
    (({ connected := true, queues := [], consumers := [], nextWrapper := 0,
        nextCtag := 0 } : SimpleQueueClient).connected = true)
    ∧ (([Effect.basicPublish "user_activity" "x"].all (fun e => !isDeclare e)) = true)
    ∧ ({ TornadoQueueClient.initial with channelOpen := true }.channelOpen = true)
    ∧ (([] : List Effect).all (fun e => !isDeclare e) = true)
    ∧ ((({ connected := true, queues := [], consumers := [], nextWrapper := 0,
           nextCtag := 0 } : SimpleQueueClient).ensure_queue "user_activity"
          (fun s => (s, [Effect.basicPublish "user_activity" "x"], none))).1.ensure_queue
          "user_activity"
          (fun s => (s, [Effect.basicPublish "user_activity" "x"], none))).2.1
        = [Effect.basicPublish "user_activity" "x"] :=
  ⟨rfl, by decide, rfl, by decide,
   (ensure_queue_declares_once
      { connected := true, queues := [], consumers := [], nextWrapper := 0, nextCtag := 0 }
      { TornadoQueueClient.initial with channelOpen := true }
      "user_activity" [Effect.basicPublish "user_activity" "x"] []
      rfl (by decide) rfl (by decide)).1.2.2⟩

lemma replayList_cons (st : TornadoQueueClient) (w : Wrapper) (ws : List Wrapper) :
    TornadoQueueClient.replayList st (w :: ws)
      = ((TornadoQueueClient.replayList (st.reconnect_consumer_callback w).1 ws).1,
         (st.reconnect_consumer_callback w).2
           ++ (TornadoQueueClient.replayList (st.reconnect_consumer_callback w).1 ws).2) :=
  rfl

lemma replayList_spec (ws : List Wrapper) :
    ∀ (st : TornadoQueueClient), st.channelOpen = true →
    ((TornadoQueueClient.replayList st ws).2.filter isConsume
        = replayConsumeSpec st.nextCtag ws)
    ∧ (TornadoQueueClient.replayList st ws).1.consumers = st.consumers
    ∧ (TornadoQueueClient.replayList st ws).1.channelOpen = true
    ∧ (TornadoQueueClient.replayList st ws).1.onOpenCbs = st.onOpenCbs := by
  induction ws with
  | nil =>
    intro st h
    simp [TornadoQueueClient.replayList, replayConsumeSpec, h]
  | cons w ws ih =>
    intro st h
    have h1 : (st.reconnect_consumer_callback w).1
        = { st with
            queues := if w.queue ∈ st.queues then st.queues else w.queue :: st.queues,
            nextCtag := st.nextCtag + 1 } := by
      by_cases hq : w.queue ∈ st.queues <;>
        simp [TornadoQueueClient.reconnect_consumer_callback,
          TornadoQueueClient.ensure_queue, TornadoQueueClient.runCb, h, hq]
    have h2 : (st.reconnect_consumer_callback w).2.filter isConsume
        = [Effect.basicConsume w.queue ⟨w.queue, st.nextCtag⟩] := by
      by_cases hq : w.queue ∈ st.queues <;>
        simp [TornadoQueueClient.reconnect_consumer_callback,
          TornadoQueueClient.ensure_queue, TornadoQueueClient.runCb, h, hq, isConsume]
    have ihh := ih (st.reconnect_consumer_callback w).1 (by simp [h1, h])
    have hct : (st.reconnect_consumer_callback w).1.nextCtag = st.nextCtag + 1 := by
      rw [h1]
    have hcons : (st.reconnect_consumer_callback w).1.consumers = st.consumers := by
      rw [h1]
    have hocb : (st.reconnect_consumer_callback w).1.onOpenCbs = st.onOpenCbs := by
      rw [h1]
    rw [replayList_cons]
    refine ⟨?_, ?_, ?_, ?_⟩
    · simp only [List.filter_append, h2, ihh.1, hct, replayConsumeSpec]
      rfl
    · rw [ihh.2.1, hcons]
    · exact ihh.2.2.1
    · rw [ihh.2.2.2, hocb]

lemma replayConsumeSpec_tags (ws : List Wrapper) :
    ∀ c, ((replayConsumeSpec c ws).filterMap consumeTag).Nodup
      ∧ ∀ tg ∈ (replayConsumeSpec c ws).filterMap consumeTag, c ≤ tg.nonce := by
  induction ws with
  | nil => intro c; simp [replayConsumeSpec]
  | cons w ws ih =>
    intro c
    obtain ⟨ihn, ihb⟩ := ih (c + 1)
    simp only [replayConsumeSpec, List.filterMap_cons, consumeTag]
    constructor
    · refine List.nodup_cons.mpr ⟨?_, ihn⟩
      intro hmem
      have := ihb _ hmem
      simp at this
    · intro tg htg
      rcases List.mem_cons.mp htg with h | h
      · subst h; exact le_refl c
      · exact le_of_lt (lt_of_lt_of_le (Nat.lt_succ_self c) (ihb _ h))

lemma replayConsumeSpec_length (ws : List Wrapper) :
    ∀ c, (replayConsumeSpec c ws).length = ws.length := by
  induction ws with
  | nil => intro c; rfl
  | cons w ws ih => intro c; simp [replayConsumeSpec, ih]

/-- Claim C2 counterexample: a blocking-model client with exactly one
registered (queue, callback) pair, for which a (successful) reconnection
resubmits zero consume requests — not exactly one per pair:
`SimpleQueueClient._reconnect` never invokes
`_reconnect_consumer_callbacks`, which is wired only to the event-driven
client's `_on_channel_open`. -/
theorem blocking_reconnect_resubmits_nothing :
    (({ connected := true, queues := ["missedmessage_emails"],
        consumers := [⟨0, "missedmessage_emails", 0⟩], nextWrapper := 1,
        nextCtag := 1 } : SimpleQueueClient).consumers.length = 1)
    ∧ ((({ connected := true, queues := ["missedmessage_emails"],
           consumers := [⟨0, "missedmessage_emails", 0⟩], nextWrapper := 1,
           nextCtag := 1 } : SimpleQueueClient).reconnect).1.connected = true)
    ∧ ((({ connected := true, queues := ["missedmessage_emails"],
           consumers := [⟨0, "missedmessage_emails", 0⟩], nextWrapper := 1,
           nextCtag := 1 } : SimpleQueueClient).reconnect).2.filter isConsume = []) := by
  decide

/-- Claim C2 (amended): in the event-driven model, consumer replay after a
successful reconnection resubmits exactly one fresh broker consume request
per consumer-registry entry — on that entry's queue, with freshly generated
pairwise-distinct consumer tags — and leaves the registry unchanged; in
the blocking model, reconnection resubmits no consume request at all and
also leaves the registry unchanged. -/
theorem reconnect_replay_consumers (t : TornadoQueueClient) (st : SimpleQueueClient)
    (h : t.channelOpen = true) :
    ((t.reconnect_consumer_callbacks).2.filter isConsume
        = replayConsumeSpec t.nextCtag t.consumers)
    ∧ (t.reconnect_consumer_callbacks).1.consumers = t.consumers
    ∧ (((t.reconnect_consumer_callbacks).2.filter isConsume).filterMap consumeTag).Nodup
    ∧ (∀ tg ∈ ((t.reconnect_consumer_callbacks).2.filter isConsume).filterMap consumeTag,
         t.nextCtag ≤ tg.nonce)
    ∧ (st.reconnect).2.filter isConsume = []
    ∧ (st.reconnect).1.consumers = st.consumers := by
  have hr := replayList_spec t.consumers t h
  simp only [TornadoQueueClient.reconnect_consumer_callbacks]
  refine ⟨hr.1, hr.2.1, ?_, ?_, ?_, rfl⟩
  · rw [hr.1]
    exact (replayConsumeSpec_tags t.consumers t.nextCtag).1
  · rw [hr.1]
    exact (replayConsumeSpec_tags t.consumers t.nextCtag).2
  · simp [SimpleQueueClient.reconnect, SimpleQueueClient.connect, isConsume]

theorem reconnect_replay_consumers_witness :
    ({ TornadoQueueClient.initial with
        channelOpen := true,
        consumers := [⟨0, "notify_tornado", 0⟩, ⟨1, "user_presence", 1⟩],
        nextCtag := 5 }.channelOpen = true)
    ∧ (({ TornadoQueueClient.initial with
          channelOpen := true,
          consumers := [⟨0, "notify_tornado", 0⟩, ⟨1, "user_presence", 1⟩],
          nextCtag := 5 }.reconnect_consumer_callbacks).2.filter isConsume
        = replayConsumeSpec 5 [⟨0, "notify_tornado", 0⟩, ⟨1, "user_presence", 1⟩]) :=
  ⟨rfl,
   (reconnect_replay_consumers
      { TornadoQueueClient.initial with
        channelOpen := true,
        consumers := [⟨0, "notify_tornado", 0⟩, ⟨1, "user_presence", 1⟩],
        nextCtag := 5 }
      { connected := true, queues := [], consumers := [], nextWrapper := 0, nextCtag := 0 }
      rfl).1⟩

/-- Claim C8 counterexample: registering the identical callback twice for
the same queue is not a no-op: each call creates a fresh
`wrapped_consumer` closure before `set.add`, so the registry ends up
holding two entries for the pair, and replay after the channel opens
submits two consume requests, not one. -/
theorem duplicate_registration_not_deduplicated :
    ((((TornadoQueueClient.initial.register_consumer "tornado_return" 0).1.register_consumer
          "tornado_return" 0).1.consumers.filter
        (fun w => w.queue == "tornado_return" && w.callbackId == 0)).length = 2)
    ∧ ((((((TornadoQueueClient.initial.register_consumer "tornado_return"
            0).1.register_consumer "tornado_return" 0).1.on_channel_open).2.filter
          isConsume).length) = 2) := by
  decide

/-- Claim C8 (amended): duplicate registration of the identical callback is
not deduplicated: each `register_consumer` call wraps the callback in a
fresh `wrapped_consumer` closure before inserting it, and the per-queue
set deduplicates only on wrapper identity, so registering the identical
callback twice for the same queue (here while the event-driven client is
disconnected) appends two distinct registry entries, and replay after
reconnection submits one consume request per registry entry — two for that
pair; the blocking client's registration likewise appends a fresh wrapper
on every call. -/
theorem register_consumer_no_dedup (t : TornadoQueueClient) (st : SimpleQueueClient)
    (q : String) (cb : Nat)
    (ht : t.channelOpen = false) (hocb : t.onOpenCbs = [])
    (hw : ∀ w ∈ t.consumers, w.id < t.nextWrapper)
    (hs : ∀ w ∈ st.consumers, w.id < st.nextWrapper) :
    (((t.register_consumer q cb).1.register_consumer q cb).1.consumers
        = t.consumers ++ [⟨t.nextWrapper, q, cb⟩, ⟨t.nextWrapper + 1, q, cb⟩])
    ∧ (((((t.register_consumer q cb).1.register_consumer q cb).1.on_channel_open).2.filter
          isConsume).length = t.consumers.length + 2)
    ∧ ((st.register_consumer q cb).1.consumers = st.consumers ++ [⟨st.nextWrapper, q, cb⟩]) := by
  obtain ⟨tco, tq, tcons, tnw, tnc, tocb, tfc⟩ := t
  replace ht : tco = false := ht
  replace hocb : tocb = [] := hocb
  replace hw : ∀ w ∈ tcons, w.id < tnw := hw
  subst ht hocb
  have hm1 : (⟨tnw, q, cb⟩ : Wrapper) ∉ tcons := by
    intro hm
    exact absurd (hw _ hm) (by simp)
  have hm2 : (⟨tnw + 1, q, cb⟩ : Wrapper) ∉ tcons ++ [⟨tnw, q, cb⟩] := by
    intro hm
    rcases List.mem_append.mp hm with hmo | hmn
    · exact absurd (hw _ hmo) (by simp)
    · simp only [List.mem_singleton, Wrapper.mk.injEq] at hmn
      omega
  have hw2 : ((TornadoQueueClient.register_consumer
        ⟨false, tq, tcons, tnw, tnc, [], tfc⟩ q cb).1.register_consumer q cb).1
      = ⟨false, tq, tcons ++ [⟨tnw, q, cb⟩, ⟨tnw + 1, q, cb⟩], tnw + 2, tnc, [], tfc⟩ := by
    simp [TornadoQueueClient.register_consumer, insertWrapper, hm1, hm2]
  refine ⟨by rw [hw2], ?_, ?_⟩
  · rw [hw2]
    have hro := replayList_spec (tcons ++ [⟨tnw, q, cb⟩, ⟨tnw + 1, q, cb⟩])
      ⟨true, tq, tcons ++ [⟨tnw, q, cb⟩, ⟨tnw + 1, q, cb⟩], tnw + 2, tnc, [], tfc⟩ rfl
    simp only [TornadoQueueClient.on_channel_open, TornadoQueueClient.runPending,
      TornadoQueueClient.reconnect_consumer_callbacks, List.nil_append,
      List.filter_append]
    rw [hro.1]
    simp [replayConsumeSpec_length, isConsume]
  · obtain ⟨sc, sq, scons, snw, snc⟩ := st
    replace hs : ∀ w ∈ scons, w.id < snw := hs
    have hms : (⟨snw, q, cb⟩ : Wrapper) ∉ scons := by
      intro hm
      exact absurd (hs _ hm) (by simp)
    cases sc <;> by_cases hq : q ∈ sq <;>
      simp [SimpleQueueClient.register_consumer, SimpleQueueClient.ensure_queue,
        SimpleQueueClient.connect, insertWrapper, hq, hms]

theorem register_consumer_no_dedup_witness :
    (TornadoQueueClient.initial.channelOpen = false)
    ∧ (TornadoQueueClient.initial.onOpenCbs = [])
    ∧ (∀ w ∈ TornadoQueueClient.initial.consumers,
        w.id < TornadoQueueClient.initial.nextWrapper)
    ∧ (∀ w ∈ ({ connected := true, queues := [], consumers := [], nextWrapper := 0,
                nextCtag := 0 } : SimpleQueueClient).consumers,
        w.id < ({ connected := true, queues := [], consumers := [], nextWrapper := 0,
                  nextCtag := 0 } : SimpleQueueClient).nextWrapper)
    ∧ (((TornadoQueueClient.initial.register_consumer "tornado_return" 3).1.register_consumer
          "tornado_return" 3).1.consumers
        = [⟨0, "tornado_return", 3⟩, ⟨1, "tornado_return", 3⟩]) :=
  ⟨rfl, rfl, by decide, by decide,
   by simpa using (register_consumer_no_dedup TornadoQueueClient.initial
      { connected := true, queues := [], consumers := [], nextWrapper := 0, nextCtag := 0 }
      "tornado_return" 3 rfl rfl (by decide) (by decide)).1⟩

lemma runConnTrace_eq_spec :
    ∀ (tr : List ConnEvent) (st : TornadoQueueClient) (estab : Bool),
    (estab = true → st.failureCount = 0) → wfConnTrace estab tr = true →
    (st.runConnTrace tr).failureCount = specFailureCount st.failureCount tr := by
  intro tr
  induction tr with
  | nil => intro st estab hinv hwf; rfl
  | cons e tr ih =>
    intro st estab hinv hwf
    cases e with
    | openError =>
      simp only [wfConnTrace, Bool.and_eq_true, Bool.not_eq_true'] at hwf
      simp only [TornadoQueueClient.runConnTrace, TornadoQueueClient.connStep,
        TornadoQueueClient.on_connection_open_error, specFailureCount]
      exact ih _ false (by simp) hwf.2
    | closed =>
      simp only [wfConnTrace, Bool.and_eq_true] at hwf
      have h0 : st.failureCount = 0 := hinv hwf.1
      simp only [TornadoQueueClient.runConnTrace, TornadoQueueClient.connStep,
        TornadoQueueClient.on_connection_closed, specFailureCount]
      rw [h0]
      exact ih _ false (by simp) hwf.2
    | opened =>
      simp only [wfConnTrace, Bool.and_eq_true, Bool.not_eq_true'] at hwf
      simp only [TornadoQueueClient.runConnTrace, TornadoQueueClient.connStep,
        TornadoQueueClient.on_open, specFailureCount]
      exact ih _ true (fun _ => rfl) hwf.2

/-- Claim C6: over every well-formed connection-lifecycle trace, the
event-driven client's failure counter behaves as: increment on every
failed connect attempt and on every loss of an established connection,
reset to zero on successful open (the code's set-to-1 in
`_on_connection_closed` coincides with an increment because the counter is
always 0 while a connection is established); and the failed-connect log
message is emitted at critical severity exactly when the incremented
counter exceeds `CONNECTION_FAILURES_BEFORE_NOTIFY = 10`, at warning
severity otherwise. -/
theorem connection_failure_counter :
    (∀ tr : List ConnEvent, wfConnTrace false tr = true →
      (TornadoQueueClient.initial.runConnTrace tr).failureCount = specFailureCount 0 tr)
    ∧ (∀ st : TornadoQueueClient,
        (((st.on_connection_open_error).2.head? = some (Effect.log .critical))
          ↔ st.failureCount + 1 > CONNECTION_FAILURES_BEFORE_NOTIFY)
        ∧ (((st.on_connection_open_error).2.head? = some (Effect.log .warning))
          ↔ ¬ (st.failureCount + 1 > CONNECTION_FAILURES_BEFORE_NOTIFY))
        ∧ (st.on_connection_open_error).1.failureCount = st.failureCount + 1
        ∧ (st.on_connection_closed).1.failureCount = 1
        ∧ (st.on_open).1.failureCount = 0) := by
  constructor
  · intro tr hwf
    exact runConnTrace_eq_spec tr TornadoQueueClient.initial false (fun _ => rfl) hwf
  · intro st
    refine ⟨?_, ?_, rfl, rfl, rfl⟩
    · by_cases hgt : st.failureCount + 1 > CONNECTION_FAILURES_BEFORE_NOTIFY <;>
        simp [TornadoQueueClient.on_connection_open_error,
          CONNECTION_FAILURES_BEFORE_NOTIFY, hgt] <;>
        omega
    · by_cases hgt : st.failureCount + 1 > CONNECTION_FAILURES_BEFORE_NOTIFY <;>
        simp [TornadoQueueClient.on_connection_open_error,
          CONNECTION_FAILURES_BEFORE_NOTIFY, hgt]

theorem connection_failure_counter_witness :
    (wfConnTrace false [.openError, .openError, .opened, .closed, .openError] = true)
    ∧ (TornadoQueueClient.initial.runConnTrace
        [.openError, .openError, .opened, .closed, .openError]).failureCount
      = specFailureCount 0 [.openError, .openError, .opened, .closed, .openError] :=
  ⟨by decide,
   connection_failure_counter.1 [.openError, .openError, .opened, .closed, .openError]
     (by decide)⟩

lemma issueAll_buffers (ops : List (String × List Effect)) :
    ∀ (st : TornadoQueueClient), st.channelOpen = false → st.queues = [] →
    issueAll st ops
      = ({ st with
           onOpenCbs := st.onOpenCbs ++ ops.map (fun p => (p.1, CbAction.app p.2)) },
         []) := by
  induction ops with
  | nil =>
    intro st h1 h2
    simp [issueAll]
  | cons op rest ih =>
    intro st h1 h2
    obtain ⟨q, es⟩ := op
    have he : st.ensure_queue q (.app es)
        = ({ st with onOpenCbs := st.onOpenCbs ++ [(q, .app es)] }, []) := by
      simp [TornadoQueueClient.ensure_queue, h1, h2]
    simp only [issueAll, he]
    rw [ih { st with onOpenCbs := st.onOpenCbs ++ [(q, .app es)] } (by simp [h1]) (by simp [h2])]
    simp

lemma runPending_fifo (ops : List (String × List Effect)) :
    ∀ (st : TornadoQueueClient), st.channelOpen = true →
    ((TornadoQueueClient.runPending st (ops.map (fun p => (p.1, CbAction.app p.2)))).2
        = fifoSpec st.queues ops)
    ∧ (TornadoQueueClient.runPending st
        (ops.map (fun p => (p.1, CbAction.app p.2)))).1.channelOpen = true
    ∧ (TornadoQueueClient.runPending st
        (ops.map (fun p => (p.1, CbAction.app p.2)))).1.onOpenCbs = st.onOpenCbs := by
  induction ops with
  | nil =>
    intro st h
    simp [TornadoQueueClient.runPending, fifoSpec, h]
  | cons op rest ih =>
    intro st h
    obtain ⟨q, es⟩ := op
    by_cases hq : q ∈ st.queues
    · have he : st.ensure_queue q (.app es) = (st, es) := by
        simp [TornadoQueueClient.ensure_queue, TornadoQueueClient.runCb, hq]
      have ihh := ih st h
      simp only [List.map_cons, TornadoQueueClient.runPending, he, fifoSpec, hq, if_pos]
      exact ⟨by rw [ihh.1], ihh.2.1, ihh.2.2⟩
    · have he : st.ensure_queue q (.app es)
          = ({ st with queues := q :: st.queues }, Effect.queueDeclare q :: es) := by
        simp [TornadoQueueClient.ensure_queue, TornadoQueueClient.runCb, hq, h]
      have ihh := ih { st with queues := q :: st.queues } (by simp [h])
      simp only [List.map_cons, TornadoQueueClient.runPending, he, fifoSpec, hq, if_neg,
        not_false_iff]
      exact ⟨by rw [ihh.1], ihh.2.1, ihh.2.2⟩

/-- Claim C7 counterexample: one `ensure_queue` operation buffered while
disconnected is executed at the first channel-open and then executed again
at a second channel-open after an intervening reconnect — its publish
effect happens twice in total, so a buffered operation does not execute
exactly once, and the on-open callback list still holds the operation
after the first open (the list is iterated, never cleared). -/
theorem on_open_cbs_rerun_cex :
    ((((TornadoQueueClient.initial.ensure_queue "notify_tornado"
          (.app [Effect.basicPublish "notify_tornado" "m"])).1.on_channel_open).2
       ++ ((((TornadoQueueClient.initial.ensure_queue "notify_tornado"
              (.app [Effect.basicPublish "notify_tornado" "m"])).1.on_channel_open).1.reconnect).1.on_channel_open).2).count
        (Effect.basicPublish "notify_tornado" "m") = 2)
    ∧ (((TornadoQueueClient.initial.ensure_queue "notify_tornado"
          (.app [Effect.basicPublish "notify_tornado" "m"])).1.on_channel_open).1.onOpenCbs
        = [("notify_tornado", CbAction.app [Effect.basicPublish "notify_tornado" "m"])]) := by
  decide

/-- Claim C7 (amended): in the event-driven client, every `ensure_queue`
operation issued while no channel is open (so with an empty declared-queue
cache, which reconnection guarantees) is appended to the ordered on-open
callback list and returns immediately with no broker effect; when the
channel transitions to open, the buffered operations are executed in FIFO
issue order — each exactly once per open transition — and only then is
consumer replay performed; the list itself is not cleared by the drain, so
a later channel-open would execute the buffered operations again. -/
theorem on_channel_open_fifo (st : TornadoQueueClient)
    (ops : List (String × List Effect))
    (h1 : st.channelOpen = false) (h2 : st.queues = []) (h3 : st.onOpenCbs = []) :
    ((issueAll st ops).2 = [])
    ∧ ((issueAll st ops).1.onOpenCbs = ops.map (fun p => (p.1, CbAction.app p.2)))
    ∧ (((issueAll st ops).1.on_channel_open).2
        = fifoSpec [] ops
          ++ (TornadoQueueClient.runPending
                { (issueAll st ops).1 with channelOpen := true }
                (issueAll st ops).1.onOpenCbs).1.reconnect_consumer_callbacks.2
          ++ [Effect.log .info])
    ∧ (((issueAll st ops).1.on_channel_open).1.onOpenCbs
        = ops.map (fun p => (p.1, CbAction.app p.2))) := by
  obtain ⟨tco, tq, tcons, tnw, tnc, tocb, tfc⟩ := st
  replace h1 : tco = false := h1
  replace h2 : tq = [] := h2
  replace h3 : tocb = [] := h3
  subst h1 h2 h3
  have hb := issueAll_buffers ops ⟨false, [], tcons, tnw, tnc, [], tfc⟩ rfl rfl
  simp only [List.nil_append] at hb
  rw [hb]
  refine ⟨rfl, rfl, ?_, ?_⟩
  · have hfifo := runPending_fifo ops
      ⟨true, [], tcons, tnw, tnc, ops.map (fun p => (p.1, CbAction.app p.2)), tfc⟩ rfl
    simp only [TornadoQueueClient.on_channel_open]
    rw [hfifo.1]
  · have hfifo := runPending_fifo ops
      ⟨true, [], tcons, tnw, tnc, ops.map (fun p => (p.1, CbAction.app p.2)), tfc⟩ rfl
    have hrep := replayList_spec
      (TornadoQueueClient.runPending
        ⟨true, [], tcons, tnw, tnc, ops.map (fun p => (p.1, CbAction.app p.2)), tfc⟩
        (ops.map (fun p => (p.1, CbAction.app p.2)))).1.consumers
      (TornadoQueueClient.runPending
        ⟨true, [], tcons, tnw, tnc, ops.map (fun p => (p.1, CbAction.app p.2)), tfc⟩
        (ops.map (fun p => (p.1, CbAction.app p.2)))).1
      hfifo.2.1
    simp only [TornadoQueueClient.on_channel_open,
      TornadoQueueClient.reconnect_consumer_callbacks]
    rw [hrep.2.2.2, hfifo.2.2]

theorem on_channel_open_fifo_witness :
    (TornadoQueueClient.initial.channelOpen = false)
    ∧ (TornadoQueueClient.initial.queues = [])
    ∧ (TornadoQueueClient.initial.onOpenCbs = [])
    ∧ ((issueAll TornadoQueueClient.initial
          [("user_activity", [Effect.basicPublish "user_activity" "a"]),
           ("user_presence", []), ("missedmessage_emails", [])]).1.onOpenCbs
        = [("user_activity", CbAction.app [Effect.basicPublish "user_activity" "a"]),
           ("user_presence", CbAction.app []), ("missedmessage_emails", CbAction.app [])]) :=
  ⟨rfl, rfl, rfl,
   by simpa using (on_channel_open_fifo TornadoQueueClient.initial
      [("user_activity", [Effect.basicPublish "user_activity" "a"]),
       ("user_presence", []), ("missedmessage_emails", [])] rfl rfl rfl).2.1⟩
